import Mathlib

/-!
Shallow embedding of the tauri-plugin-mcp console-capture and direct-eval
tools (src/tools/console_capture.rs and src/tools/direct_eval.rs).

The repository consists of request handlers that build JavaScript snippets
as strings and hand them to a host "evaluate script in window" primitive.
The embedding has two layers:

* a page-side layer modelling the semantics of the injected scripts on the
  page's global state (`PageState`): the console-capture shim installed by
  `capture_code`, the error/rejection listeners, the retrieve/search
  scripts of `handle_get_js_result`, and the wrapper of
  `handle_direct_eval`;
* a native-side layer modelling the Rust handlers themselves: window
  lookup against a registry of labels, the host eval outcome (abstracted
  as a function from scripts to an optional error message), the response
  values built from `serde_json::json!`, and a trace of the scripts that
  were actually handed to the host for evaluation.
-/

/-- Model of a JavaScript value, as far as the injected scripts inspect
one: `typeof`, `String(...)` coercion and `JSON.stringify`. Objects are
modelled as ordered field lists. -/
inductive JSVal where
  | undefined
  | null
  | bool (b : Bool)
  | num (n : Int)
  | str (s : String)
  | obj (fields : List (String × JSVal))

/-- JavaScript `typeof` on the modelled values; note `typeof null` is
`"object"`. -/
def jsTypeof : JSVal → String
  | .undefined => "undefined"
  | .null => "object"
  | .bool _ => "boolean"
  | .num _ => "number"
  | .str _ => "string"
  | .obj _ => "object"

/-- JavaScript `String(...)` coercion on the modelled values. -/
def jsToString : JSVal → String
  | .undefined => "undefined"
  | .null => "null"
  | .bool true => "true"
  | .bool false => "false"
  | .num n => toString n
  | .str s => s
  | .obj _ => "[object Object]"

/-- Whether a value is `undefined`; `JSON.stringify` drops object fields
whose value is undefined. -/
def isUndef : JSVal → Bool
  | .undefined => true
  | _ => false

mutual

/-- JavaScript `JSON.stringify` on the modelled values. The call sites in
the embedded scripts only reach it with values of `typeof` `"object"`
(null or an object), so the top-level `undefined` case is unreachable
there. -/
def jsonStringify : JSVal → String
  | .undefined => "undefined"
  | .null => "null"
  | .bool true => "true"
  | .bool false => "false"
  | .num n => toString n
  | .str s => "\x22" ++ s ++ "\x22"
  | .obj fields => "\x7b" ++ jsonFields fields ++ "\x7d"

/-- Serialization of an object's fields, dropping undefined-valued fields
as `JSON.stringify` does. -/
def jsonFields : List (String × JSVal) → String
  | [] => ""
  | (k, v) :: rest =>
    if isUndef v then jsonFields rest
    else if (rest.filter fun p => !isUndef p.2).isEmpty then
      "\x22" ++ k ++ "\x22:" ++ jsonStringify v
    else
      "\x22" ++ k ++ "\x22:" ++ jsonStringify v ++ "," ++ jsonFields rest

end

/-- Formatting of one console argument inside `wrapConsoleMethod`
(console_capture.rs lines 82-84): an argument of object type is
JSON-stringified, everything else is string-coerced. -/
def formatArg (arg : JSVal) : String :=
  if jsTypeof arg = "object" then jsonStringify arg else jsToString arg

/-- Captured message built by `wrapConsoleMethod` (console_capture.rs
lines 82-84): `args.map(...).join(' ')`. -/
def formatMessage (args : List JSVal) : String :=
  String.intercalate " " (args.map formatArg)

/-- Console Entry pushed by the wrapped console methods (console_capture.rs
lines 86-91). -/
structure ConsoleEntry where
  level : String
  message : String
  timestamp : String
  sessionId : String
deriving DecidableEq, Repr

/-- JavaScript error entry pushed by the `error` and `unhandledrejection`
listeners (console_capture.rs lines 110-141). -/
structure JSErrorEntry where
  message : String
  filename : Option String
  lineno : Option Nat
  colno : Option Nat
  stack : Option String
  timestamp : String
  sessionId : String
deriving DecidableEq, Repr

/-- Result slot written by the direct-eval wrapper
(`window.__mcpLastResult`, direct_eval.rs lines 35-47). -/
structure EvalResultSlot where
  success : Bool
  value : Option JSVal := none
  type : Option String := none
  stringValue : Option String := none
  error : Option String := none
  stack : Option String := none

/-- Search-result slot written by the search script of
`handle_get_js_result` (`window.__mcpLastSearchResult`, console_capture.rs
lines 247-261). -/
structure SearchResult where
  found : Bool
  data : Option String := none
  error : Option String := none
  timestamp : String
deriving DecidableEq, Repr

/-- Page-global state touched by the injected scripts. `Option` encodes a
global that may still be `undefined`. The listener counts and the wrapped
flag track how many listeners were registered and whether the console
methods have been replaced, so that re-installation is observable. -/
structure PageState where
  mcpEventConsoleCapture : Bool := false
  consoleBuffer : Option (List ConsoleEntry) := none
  consoleSessionId : Option String := none
  mcpConsoleMessages : Option (List ConsoleEntry) := none
  mcpJSErrors : Option (List JSErrorEntry) := none
  mcpLastResult : Option EvalResultSlot := none
  mcpLastSearchResult : Option SearchResult := none
  consoleWrapped : Bool := false
  errorListeners : Nat := 0
  rejectionListeners : Nat := 0

/-- Fresh page: every global undefined, nothing installed. -/
def freshPage : PageState := {}

/-- Entry construction inside `wrapConsoleMethod` (console_capture.rs
lines 86-91). The session id read is `window.__consoleSessionId`; the
wrapped methods only exist after setup has defined it, so the `getD`
default is unreachable in any state produced by `setupCapture`. -/
def consoleEntryOf (level : String) (args : List JSVal) (ts : String)
    (st : PageState) : ConsoleEntry :=
  { level := level
    message := formatMessage args
    timestamp := ts
    sessionId := st.consoleSessionId.getD "undefined" }

/-- Body of a wrapped console method (console_capture.rs lines 77-99):
push the entry onto `__consoleBuffer`, then onto `__mcpConsoleMessages`
(initializing the latter if still undefined). `__consoleBuffer.push` would
throw on an undefined buffer; the wrapped methods only exist after setup
has defined it, so the `getD` default is unreachable from `setupCapture`
states. -/
def consoleCall (level : String) (args : List JSVal) (ts : String)
    (st : PageState) : PageState :=
  let entry := consoleEntryOf level args ts st
  { st with
    consoleBuffer := some (st.consoleBuffer.getD [] ++ [entry])
    mcpConsoleMessages := some (st.mcpConsoleMessages.getD [] ++ [entry]) }

/-- Value returned to the evaluator by `capture_code`
(console_capture.rs lines 61 and 153-157). -/
inductive SetupReturn where
  | alreadySetup
  | setupComplete (session_id : String) (capture_method : String)
deriving DecidableEq, Repr

/-- Page semantics of `capture_code` (console_capture.rs lines 59-159):
flag-guarded installation, keeping an existing `__consoleBuffer`,
assigning `__consoleSessionId := Date.now().toString()`, wrapping the five
console methods, registering the two listeners, and finally logging the
initialization message through the (now wrapped) `console.log`. `now` is
the value of `Date.now()` and `ts` the ISO timestamp used for the
initialization log entry. -/
def setupCapture (now : Nat) (ts : String) (st : PageState) :
    SetupReturn × PageState :=
  if st.mcpEventConsoleCapture then (.alreadySetup, st)
  else
    let sid := toString now
    let st1 : PageState :=
      { st with
        mcpEventConsoleCapture := true
        consoleBuffer := some (st.consoleBuffer.getD [])
        consoleSessionId := some sid
        consoleWrapped := true
        errorListeners := st.errorListeners + 1
        rejectionListeners := st.rejectionListeners + 1 }
    let st2 := consoleCall "log"
      [.str "Event-based console capture system initialized"] ts st1
    (.setupComplete sid "events", st2)

/-- Data of an `error` event as read by the listener (console_capture.rs
lines 110-124). `errorStack` models `event.error ? event.error.stack :
null`. -/
structure ErrorEvent where
  message : String
  filename : String
  lineno : Nat
  colno : Nat
  errorStack : Option String

/-- Page semantics of the `error` listener (console_capture.rs lines
110-124): push one entry onto `__mcpJSErrors`, initializing it if still
undefined. -/
def onError (ev : ErrorEvent) (ts : String) (st : PageState) : PageState :=
  let info : JSErrorEntry :=
    { message := ev.message
      filename := some ev.filename
      lineno := some ev.lineno
      colno := some ev.colno
      stack := ev.errorStack
      timestamp := ts
      sessionId := st.consoleSessionId.getD "undefined" }
  { st with mcpJSErrors := some (st.mcpJSErrors.getD [] ++ [info]) }

/-- Data of an `unhandledrejection` event (console_capture.rs lines
127-141). `reasonStack` models `event.reason && event.reason.stack ?
event.reason.stack : null`. -/
structure RejectionEvent where
  reason : JSVal
  reasonStack : Option String

/-- Page semantics of the `unhandledrejection` listener (console_capture.rs
lines 127-141): push one entry with the fixed message prefix and null
filename/lineno/colno onto `__mcpJSErrors`. -/
def onRejection (ev : RejectionEvent) (ts : String) (st : PageState) :
    PageState :=
  let info : JSErrorEntry :=
    { message := "Unhandled Promise Rejection: " ++ jsToString ev.reason
      filename := none
      lineno := none
      colno := none
      stack := ev.reasonStack
      timestamp := ts
      sessionId := st.consoleSessionId.getD "undefined" }
  { st with mcpJSErrors := some (st.mcpJSErrors.getD [] ++ [info]) }

/-- JavaScript `String.prototype.includes`: substring containment. -/
def strContains (s pat : String) : Bool :=
  decide (pat.data <:+: s.data)

/-- Characters after the first colon, or `none` when there is no colon;
this is `indexOf(':')` followed by `substring(colonIndex + 1)` from the
search script (console_capture.rs lines 244-246). -/
def afterColonChars : List Char → Option (List Char)
  | [] => none
  | c :: rest => if c = ':' then some rest else afterColonChars rest

/-- String form of `afterColonChars`: the substring of `s` after its first
colon, when a colon exists. -/
def afterFirstColon (s : String) : Option String :=
  (afterColonChars s.data).map fun l => ⟨l⟩

/-- Success tag of the correlation protocol (console_capture.rs line
215). -/
def successTag (key : String) : String :=
  "MCP_RETRIEVE_SUCCESS_" ++ key ++ ":"

/-- Error tag of the correlation protocol (console_capture.rs line
218). -/
def errorTag (key : String) : String :=
  "MCP_RETRIEVE_ERROR_" ++ key ++ ":"

/-- The match condition of the search script (console_capture.rs line
243): the message contains either tag. -/
def tagMatch (key m : String) : Bool :=
  strContains m (successTag key) || strContains m (errorTag key)

/-- Check of one buffer entry by the search loop: on a tag match, the
substring after the first colon (the loop continues past a matching
message with no colon; since both tags end in a colon that branch is
unreachable). -/
def checkEntry (key : String) (e : ConsoleEntry) : Option String :=
  if tagMatch key e.message then afterFirstColon e.message else none

/-- Search loop of the search script (console_capture.rs lines 241-255):
scan `__mcpConsoleMessages` from the most recent entry backward and return
the extracted data of the first match. The buffer list is in push order
(oldest first), so the recursion gives priority to the tail. -/
def searchScan (key : String) : List ConsoleEntry → Option String
  | [] => none
  | e :: rest =>
    match searchScan key rest with
    | some d => some d
    | none => checkEntry key e

/-- Page semantics of the search script (console_capture.rs lines
237-264): if `__mcpConsoleMessages` is defined, scan it backward; store
the found/not-found record into `__mcpLastSearchResult` and return the
script's string result. `ts` is the timestamp the script would produce. -/
def searchPhase (key ts : String) (st : PageState) : String × PageState :=
  match st.mcpConsoleMessages with
  | some msgs =>
    match searchScan key msgs with
    | some d =>
      let slot : SearchResult := { found := true, data := some d, timestamp := ts }
      ("found", { st with mcpLastSearchResult := some slot })
    | none =>
      let slot : SearchResult :=
        { found := false, error := some "Message not found in buffer", timestamp := ts }
      ("not_found", { st with mcpLastSearchResult := some slot })
  | none =>
    let slot : SearchResult :=
      { found := false, error := some "Message not found in buffer", timestamp := ts }
    ("not_found", { st with mcpLastSearchResult := some slot })

/-- Outcome of reading `window.<variable_name>` in the retrieve script:
either the value, or a thrown exception with message and stack. -/
inductive VarLookup where
  | ok (value : JSVal)
  | exn (message : String) (stack : JSVal)

/-- JSON payload logged by the retrieve script (console_capture.rs lines
203-227): the serialized success or error record, before the tag prefix
is prepended. `ts` is the timestamp the script would produce. -/
def retrievePayload (vl : VarLookup) (ts : String) : String :=
  match vl with
  | .ok value =>
    jsonStringify (.obj [("success", .bool true), ("value", value),
      ("type", .str (jsTypeof value)), ("timestamp", .str ts)])
  | .exn msg stack =>
    jsonStringify (.obj [("success", .bool false), ("error", .str msg),
      ("stack", stack), ("timestamp", .str ts)])

/-- Full message logged by the retrieve script: the tag for the key
followed by the JSON payload. -/
def retrieveMessage (key : String) (vl : VarLookup) (ts : String) : String :=
  match vl with
  | .ok _ => successTag key ++ retrievePayload vl ts
  | .exn _ _ => errorTag key ++ retrievePayload vl ts

/-- Page semantics of the retrieve script (console_capture.rs lines
203-227): log the tagged record through `console.log` (which, with the
shim installed, lands in both capture buffers) and return the script's
string result. `logTs` is the timestamp of the resulting console entry. -/
def retrievePhase (key : String) (vl : VarLookup) (ts logTs : String)
    (st : PageState) : String × PageState :=
  match vl with
  | .ok _ =>
    ("retrieval_logged",
      consoleCall "log" [.str (retrieveMessage key vl ts)] logTs st)
  | .exn _ _ =>
    ("error_logged",
      consoleCall "log" [.str (retrieveMessage key vl ts)] logTs st)

/-- Outcome of running the caller-supplied code inside the direct-eval
wrapper's inner immediately-invoked function. -/
inductive InnerOutcome where
  | ok (v : JSVal)
  | exn (message : String) (stack : Option String)

/-- Page semantics of the direct-eval wrapper (direct_eval.rs lines
30-53): on success write `{success, value, type, stringValue}` into
`__mcpLastResult` and return the raw value; on an exception write
`{success: false, error, stack}` and re-throw. -/
def runWrappedEval (outcome : InnerOutcome) (st : PageState) :
    Except (String × Option String) JSVal × PageState :=
  match outcome with
  | .ok v =>
    let slot : EvalResultSlot :=
      { success := true, value := some v, type := some (jsTypeof v),
        stringValue := some (jsToString v) }
    (.ok v, { st with mcpLastResult := some slot })
  | .exn msg stack =>
    let slot : EvalResultSlot :=
      { success := false, error := some msg, stack := stack }
    (.error (msg, stack), { st with mcpLastResult := some slot })

/-- Symbolic form of the scripts the handlers hand to the host's
window-eval primitive, carrying the request data that is spliced into the
generated script text. -/
inductive Script where
  | captureCode
  | retrieveCode (variableName key : String)
  | searchCode (key : String)
  | getResultCode
  | userCode (code : String)
  | bufferCode
  | directEvalWrapped (code : String)
deriving DecidableEq, Repr

/-- Host environment as the handlers see it: the labels of the live
windows, and the outcome of the host's script-evaluation call for a given
script (`none` for success, `some e` for a host error with message
`e`). -/
structure Host where
  windows : List String
  evalOutcome : Script → Option String

/-- Uniform response envelope (`SocketResponse` from the socket server),
with the `data` object modelled as a `JSVal`. -/
structure SocketResponse where
  success : Bool
  data : Option JSVal
  error : Option String

/-- Response of `handle_direct_eval` (`DirectEvalResponse`,
direct_eval.rs lines 10-15). -/
structure DirectEvalResponse where
  success : Bool
  result : Option String
  error : Option String
deriving DecidableEq, Repr

/-- Error message for a missing window, `format!("Window '{}' not
found")` in both source files. -/
def windowNotFoundMsg (label : String) : String :=
  "Window \x27" ++ label ++ "\x27 not found"

/-- Request of `handle_setup_console_capture` (`ConsoleOutputRequest`,
console_capture.rs lines 8-13). -/
structure ConsoleOutputRequest where
  window_label : Option String
  session_id : Option String
  timeout_ms : Option Nat

/-- Request of `handle_get_js_result` (console_capture.rs lines
180-184). -/
structure GetJsResultRequest where
  window_label : Option String
  variable_name : Option String

/-- Request of `handle_execute_with_console` (console_capture.rs lines
306-310). -/
structure ExecuteWithConsoleRequest where
  window_label : Option String
  code : String

/-- Request of `handle_get_console_buffer` (console_capture.rs lines
349-353); `filter` is parsed but never read afterwards. -/
structure GetConsoleBufferRequest where
  window_label : Option String
  filter : Option String

/-- Request of `handle_direct_eval` (`DirectEvalRequest`, direct_eval.rs
lines 4-8). -/
structure DirectEvalRequest where
  code : String
  window_label : Option String

/-- Native semantics of `handle_setup_console_capture` (console_capture.rs
lines 43-172): default the label to "main", resolve the window, evaluate
`capture_code`, and report. The second component is the trace of scripts
handed to the host. -/
def handle_setup_console_capture (host : Host) (req : ConsoleOutputRequest) :
    Except String SocketResponse × List Script :=
  let label := req.window_label.getD "main"
  if host.windows.contains label then
    match host.evalOutcome .captureCode with
    | some e =>
      (.error ("Failed to setup console capture: " ++ e), [.captureCode])
    | none =>
      (.ok { success := true
             data := some (.obj
               [("message", .str "Event-based console capture setup complete"),
                ("window_label", .str label)])
             error := none }, [.captureCode])
  else (.error (windowNotFoundMsg label), [])

/-- Native semantics of `handle_get_js_result` (console_capture.rs lines
176-299): default label and variable name, resolve the window, build the
time-derived correlation key, evaluate the retrieve, search and get-result
scripts in order (stopping at the first host failure), and return the
pointer-style response. `millis` is the wall-clock value used for the
key. -/
def handle_get_js_result (host : Host) (millis : Nat)
    (req : GetJsResultRequest) : Except String SocketResponse × List Script :=
  let label := req.window_label.getD "main"
  let variable_name := req.variable_name.getD "__mcpLastResult"
  let result_key := "mcp_result_" ++ toString millis
  if host.windows.contains label then
    match host.evalOutcome (.retrieveCode variable_name result_key) with
    | some e =>
      (.error ("Failed to execute retrieval JavaScript: " ++ e),
        [.retrieveCode variable_name result_key])
    | none =>
      match host.evalOutcome (.searchCode result_key) with
      | some e =>
        (.error ("Failed to execute search JavaScript: " ++ e),
          [.retrieveCode variable_name result_key, .searchCode result_key])
      | none =>
        match host.evalOutcome .getResultCode with
        | some e =>
          (.error ("Failed to get search result: " ++ e),
            [.retrieveCode variable_name result_key,
             .searchCode result_key, .getResultCode])
        | none =>
          (.ok { success := true
                 data := some (.obj
                   [("message", .str
                      "JavaScript result retrieval executed - check console buffer with get_console_buffer"),
                    ("variable_name", .str variable_name),
                    ("result_key", .str result_key),
                    ("approach", .str "console_buffer_search"),
                    ("next_step", .str
                      "Use get_console_buffer to retrieve the actual data")])
                 error := none },
            [.retrieveCode variable_name result_key,
             .searchCode result_key, .getResultCode])
  else (.error (windowNotFoundMsg label), [])

/-- Native semantics of `handle_execute_with_console` (console_capture.rs
lines 302-342): default the label, resolve the window, run the setup
handler first (propagating its error, or returning its unsuccessful
response verbatim), then evaluate the caller-supplied code verbatim. -/
def handle_execute_with_console (host : Host)
    (req : ExecuteWithConsoleRequest) :
    Except String SocketResponse × List Script :=
  let label := req.window_label.getD "main"
  if host.windows.contains label then
    let setup := handle_setup_console_capture host
      { window_label := some label, session_id := none, timeout_ms := none }
    match setup.1 with
    | .error e => (.error e, setup.2)
    | .ok r =>
      if !r.success then (.ok r, setup.2)
      else
        match host.evalOutcome (.userCode req.code) with
        | some e =>
          (.error ("Failed to execute JavaScript: " ++ e),
            setup.2 ++ [.userCode req.code])
        | none =>
          (.ok { success := true
                 data := some (.obj
                   [("message", .str
                      "JavaScript executed with event-based console capture"),
                    ("window_label", .str label)])
                 error := none }, setup.2 ++ [.userCode req.code])
  else (.error (windowNotFoundMsg label), [])

/-- Native semantics of `handle_get_console_buffer` (console_capture.rs
lines 345-399): default the label, resolve the window, evaluate the
constant buffer-assembly script and return the pointer-style response.
The parsed `filter` field is never read. -/
def handle_get_console_buffer (host : Host) (req : GetConsoleBufferRequest) :
    Except String SocketResponse × List Script :=
  let label := req.window_label.getD "main"
  if host.windows.contains label then
    match host.evalOutcome .bufferCode with
    | some e => (.error ("Failed to compile buffer data: " ++ e), [.bufferCode])
    | none =>
      (.ok { success := true
             data := some (.obj
               [("message", .str
                  "Console buffer compiled to window.__mcpBufferData"),
                ("window_label", .str label),
                ("note", .str
                  "Access window.__mcpBufferData.lastSearchResult for retrieved data")])
             error := none }, [.bufferCode])
  else (.error (windowNotFoundMsg label), [])

/-- Native semantics of `handle_direct_eval` (direct_eval.rs lines
17-82): default the label, resolve the window, wrap the caller code and
evaluate it; both host outcomes yield a normal (`Ok`) response, carrying
either the static success message or the host error prefixed with "Eval
error: ". -/
def handle_direct_eval (host : Host) (req : DirectEvalRequest) :
    Except String DirectEvalResponse × List Script :=
  let label := req.window_label.getD "main"
  if host.windows.contains label then
    match host.evalOutcome (.directEvalWrapped req.code) with
    | none =>
      (.ok { success := true
             result := some
               "Code executed successfully. Result stored in window.__mcpLastResult"
             error := none }, [.directEvalWrapped req.code])
    | some e =>
      (.ok { success := false
             result := none
             error := some ("Eval error: " ++ e) },
        [.directEvalWrapped req.code])
  else (.error (windowNotFoundMsg label), [])

/-! Helper lemmas. -/

theorem string_append_assoc (a b c : String) :
    (a ++ b) ++ c = a ++ (b ++ c) := by
  apply congrArg String.mk
  simp [String.data_append, List.append_assoc]

theorem afterColonChars_append (l1 l2 : List Char) (h : ':' ∉ l1) :
    afterColonChars (l1 ++ ':' :: l2) = some l2 := by
  induction l1 with
  | nil => simp [afterColonChars]
  | cons c cs ih =>
    simp only [List.mem_cons, not_or] at h
    simp [afterColonChars, Ne.symm h.1, ih h.2]

theorem strContains_append_left (p q : String) :
    strContains (p ++ q) p = true := by
  simp only [strContains, decide_eq_true_eq, String.data_append]
  exact (List.prefix_append p.data q.data).isInfix

theorem tagMatch_retrieveMessage (key : String) (vl : VarLookup)
    (ts : String) : tagMatch key (retrieveMessage key vl ts) = true := by
  cases vl with
  | ok v =>
    simp [tagMatch, retrieveMessage, strContains_append_left]
  | exn m s =>
    simp [tagMatch, retrieveMessage, strContains_append_left]

theorem afterFirstColon_tagged (prefixStr key payload : String)
    (hp : ':' ∉ prefixStr.data) (hk : ':' ∉ key.data) :
    afterFirstColon (prefixStr ++ key ++ ":" ++ payload) = some payload := by
  have hdata : (prefixStr ++ key ++ ":" ++ payload).data
      = (prefixStr.data ++ key.data) ++ ':' :: payload.data := by
    simp [String.data_append, List.append_assoc]
  have hmem : ':' ∉ prefixStr.data ++ key.data := by
    simp only [List.mem_append, not_or]
    exact ⟨hp, hk⟩
  show (afterColonChars (prefixStr ++ key ++ ":" ++ payload).data).map _ = _
  rw [hdata, afterColonChars_append _ _ hmem]
  rfl

theorem afterFirstColon_retrieveMessage (key : String) (vl : VarLookup)
    (ts : String) (hk : ':' ∉ key.data) :
    afterFirstColon (retrieveMessage key vl ts)
      = some (retrievePayload vl ts) := by
  cases vl with
  | ok v =>
    have : retrieveMessage key (.ok v) ts
        = "MCP_RETRIEVE_SUCCESS_" ++ key ++ ":" ++ retrievePayload (.ok v) ts := by
      simp [retrieveMessage, successTag, string_append_assoc]
    rw [this]
    exact afterFirstColon_tagged _ _ _ (by decide) hk
  | exn m s =>
    have : retrieveMessage key (.exn m s) ts
        = "MCP_RETRIEVE_ERROR_" ++ key ++ ":" ++ retrievePayload (.exn m s) ts := by
      simp [retrieveMessage, errorTag, string_append_assoc]
    rw [this]
    exact afterFirstColon_tagged _ _ _ (by decide) hk

theorem searchScan_cons (key : String) (x : ConsoleEntry)
    (l : List ConsoleEntry) :
    searchScan key (x :: l)
      = (match searchScan key l with
         | some d => some d
         | none => checkEntry key x) := rfl

theorem searchScan_append (key : String) (l : List ConsoleEntry)
    (e : ConsoleEntry) :
    searchScan key (l ++ [e]) = (checkEntry key e).or (searchScan key l) := by
  induction l with
  | nil =>
    cases h : checkEntry key e <;> simp [searchScan, h, Option.or]
  | cons x xs ih =>
    rw [List.cons_append, searchScan_cons, ih, searchScan_cons]
    cases h : checkEntry key e <;>
      cases h2 : searchScan key xs <;>
        cases h3 : checkEntry key x <;>
          simp [Option.or]

theorem searchScan_none_of_no_match (key : String)
    (l : List ConsoleEntry) (h : ∀ e ∈ l, tagMatch key e.message = false) :
    searchScan key l = none := by
  induction l with
  | nil => rfl
  | cons x xs ih =>
    have hx := h x (List.mem_cons_self x xs)
    have hxs := ih fun e he => h e (List.mem_cons_of_mem x he)
    simp [searchScan, hxs, checkEntry, hx]

theorem consoleCall_mirrors (level : String) (args : List JSVal)
    (ts : String) (st : PageState)
    (h : st.consoleBuffer = st.mcpConsoleMessages) :
    (consoleCall level args ts st).consoleBuffer
      = (consoleCall level args ts st).mcpConsoleMessages := by
  simp [consoleCall, h]

theorem intercalate_go_append (s x y : String) (l : List String) :
    String.intercalate.go (x ++ y) s l = x ++ String.intercalate.go y s l := by
  induction l generalizing y with
  | nil => rfl
  | cons a as ih =>
    show String.intercalate.go ((x ++ y) ++ s ++ a) s as
        = x ++ String.intercalate.go (y ++ s ++ a) s as
    rw [string_append_assoc x y s, string_append_assoc x (y ++ s) a]
    exact ih ((y ++ s) ++ a)

theorem intercalate_cons_cons (s a b : String) (t : List String) :
    String.intercalate s (a :: b :: t)
      = a ++ s ++ String.intercalate s (b :: t) := by
  show String.intercalate.go a s (b :: t) = (a ++ s) ++ String.intercalate.go b s t
  show String.intercalate.go ((a ++ s) ++ b) s t
      = (a ++ s) ++ String.intercalate.go b s t
  exact intercalate_go_append s (a ++ s) b t

/-- Message formatting as the specification words it: each argument of
object type is JSON-stringified, every other argument is string-coerced,
and the pieces are joined with a single space in call order. Stated
separately from `formatMessage` (which is the source's `map` plus
`join`) so the two can be compared. -/
def specMessage : List JSVal → String
  | [] => ""
  | [a] => if jsTypeof a = "object" then jsonStringify a else jsToString a
  | a :: rest =>
    (if jsTypeof a = "object" then jsonStringify a else jsToString a)
      ++ " " ++ specMessage rest

/-- One simulated console call: a level, the argument list and the
timestamp the wrapped method would produce. -/
structure ConsoleCallSpec where
  level : String
  args : List JSVal
  ts : String

/-- Running a sequence of wrapped console calls against the page state. -/
def runCalls (calls : List ConsoleCallSpec) (st : PageState) : PageState :=
  calls.foldl (fun s c => consoleCall c.level c.args c.ts s) st

theorem runCalls_mirrors (calls : List ConsoleCallSpec) (st : PageState)
    (h : st.consoleBuffer = st.mcpConsoleMessages) :
    (runCalls calls st).consoleBuffer = (runCalls calls st).mcpConsoleMessages := by
  induction calls generalizing st with
  | nil => exact h
  | cons c cs ih =>
    exact ih (consoleCall c.level c.args c.ts st)
      (consoleCall_mirrors c.level c.args c.ts st h)

/-- C2: running the setup injection twice on the same page (no reload in
between) makes the second run return already_setup without re-wrapping
any console method or re-registering any listener (the page state is
unchanged), and the session id is assigned exactly once — it is the same
string before and after the second run. -/
theorem setup_idempotent (n1 n2 : Nat) (ts1 ts2 : String) (st : PageState)
    (h : st.mcpEventConsoleCapture = false) :
    (setupCapture n2 ts2 (setupCapture n1 ts1 st).2).1 = SetupReturn.alreadySetup
    ∧ (setupCapture n2 ts2 (setupCapture n1 ts1 st).2).2 = (setupCapture n1 ts1 st).2
    ∧ (setupCapture n1 ts1 st).2.consoleSessionId = some (toString n1)
    ∧ (setupCapture n2 ts2 (setupCapture n1 ts1 st).2).2.consoleSessionId
        = some (toString n1) := by
  simp [setupCapture, consoleCall, consoleEntryOf, h]

theorem setup_idempotent_witness :
    freshPage.mcpEventConsoleCapture = false
    ∧ ((setupCapture 7 "t2" (setupCapture 5 "t1" freshPage).2).1
          = SetupReturn.alreadySetup
        ∧ (setupCapture 7 "t2" (setupCapture 5 "t1" freshPage).2).2
          = (setupCapture 5 "t1" freshPage).2
        ∧ (setupCapture 5 "t1" freshPage).2.consoleSessionId = some (toString 5)
        ∧ (setupCapture 7 "t2" (setupCapture 5 "t1" freshPage).2).2.consoleSessionId
          = some (toString 5)) :=
  ⟨rfl, setup_idempotent 5 7 "t1" "t2" freshPage rfl⟩

/-- C3: for every sequence of console calls with levels among the five
wrapped ones made after the shim is installed on a fresh page, the general
console buffer and the MCP-messages buffer are identical (equal length,
pairwise-identical entries); moreover each wrapped call appends the same
entry to both buffers. -/
theorem mirrored_buffers (now : Nat) (ts : String)
    (calls : List ConsoleCallSpec)
    (_hlv : ∀ c ∈ calls,
      c.level ∈ (["log", "error", "warn", "info", "debug"] : List String)) :
    (runCalls calls (setupCapture now ts freshPage).2).consoleBuffer
      = (runCalls calls (setupCapture now ts freshPage).2).mcpConsoleMessages
    ∧ (∀ (level : String) (args : List JSVal) (t : String) (s : PageState),
        (consoleCall level args t s).consoleBuffer
          = some (s.consoleBuffer.getD [] ++ [consoleEntryOf level args t s])
        ∧ (consoleCall level args t s).mcpConsoleMessages
          = some (s.mcpConsoleMessages.getD [] ++ [consoleEntryOf level args t s])) := by
  constructor
  · apply runCalls_mirrors
    simp [setupCapture, freshPage, consoleCall, consoleEntryOf]
  · intro level args t s
    exact ⟨rfl, rfl⟩

theorem mirrored_buffers_witness :
    (∀ c ∈ ([⟨"log", [.str "hello"], "t3"⟩, ⟨"warn", [.num 4], "t4"⟩] :
        List ConsoleCallSpec),
      c.level ∈ (["log", "error", "warn", "info", "debug"] : List String))
    ∧ ((runCalls [⟨"log", [.str "hello"], "t3"⟩, ⟨"warn", [.num 4], "t4"⟩]
          (setupCapture 9 "t0" freshPage).2).consoleBuffer
        = (runCalls [⟨"log", [.str "hello"], "t3"⟩, ⟨"warn", [.num 4], "t4"⟩]
            (setupCapture 9 "t0" freshPage).2).mcpConsoleMessages
      ∧ (∀ (level : String) (args : List JSVal) (t : String) (s : PageState),
          (consoleCall level args t s).consoleBuffer
            = some (s.consoleBuffer.getD [] ++ [consoleEntryOf level args t s])
          ∧ (consoleCall level args t s).mcpConsoleMessages
            = some (s.mcpConsoleMessages.getD [] ++ [consoleEntryOf level args t s]))) :=
  ⟨by simp, mirrored_buffers 9 "t0" _ (by simp)⟩

/-- C7: an uncaught script error appends exactly one entry to the error
buffer with filename, lineno and colno taken from the event; an unhandled
promise rejection appends exactly one entry with those three fields null
and message equal to the fixed prefix followed by the string-coerced
rejection reason. -/
theorem error_buffer_entry_shapes (ev : ErrorEvent) (rev : RejectionEvent)
    (ts1 ts2 : String) (st : PageState) :
    (onError ev ts1 st).mcpJSErrors
      = some (st.mcpJSErrors.getD [] ++
          [{ message := ev.message, filename := some ev.filename,
             lineno := some ev.lineno, colno := some ev.colno,
             stack := ev.errorStack, timestamp := ts1,
             sessionId := st.consoleSessionId.getD "undefined" }])
    ∧ (onRejection rev ts2 st).mcpJSErrors
      = some (st.mcpJSErrors.getD [] ++
          [{ message := "Unhandled Promise Rejection: " ++ jsToString rev.reason,
             filename := none, lineno := none, colno := none,
             stack := rev.reasonStack, timestamp := ts2,
             sessionId := st.consoleSessionId.getD "undefined" }]) :=
  ⟨rfl, rfl⟩

/-- C9: the stored message is the arguments in call order joined with a
single space, each argument of object type JSON-stringified and every
other argument string-coerced; the source's map-then-join formatting
coincides with that wording. -/
theorem captured_message_formatting (args : List JSVal) :
    formatMessage args = specMessage args := by
  induction args with
  | nil => rfl
  | cons a rest ih =>
    cases rest with
    | nil => rfl
    | cons b t =>
      show String.intercalate " " (formatArg a :: formatArg b :: t.map formatArg)
          = _
      rw [intercalate_cons_cons]
      show formatArg a ++ " " ++ formatMessage (b :: t) = _
      rw [ih]
      rfl

/-- C10: the filter field of get-console-buffer has no effect — two valid
requests that differ only in the filter field (including its absence)
produce the identical injected script trace and the identical response. -/
theorem get_console_buffer_filter_no_effect (host : Host)
    (wl : Option String) (f1 f2 : Option String) :
    handle_get_console_buffer host { window_label := wl, filter := f1 }
      = handle_get_console_buffer host { window_label := wl, filter := f2 } := rfl

/-- C4: for request code "return 1+1" to direct-eval on an existing
window "main", when the host eval succeeds the native response is success
true with the static message beginning "Code executed successfully" and a
null error, and the page result slot afterwards holds success true, value
2, type "number", stringValue "2" (given that the inner
immediately-invoked function evaluates the snippet to the number 2). -/
theorem direct_eval_success_path (host : Host)
    (innerEval : String → InnerOutcome) (st : PageState)
    (hw : host.windows.contains "main" = true)
    (he : host.evalOutcome (.directEvalWrapped "return 1+1") = none)
    (hi : innerEval "return 1+1" = .ok (.num 2)) :
    (handle_direct_eval host { code := "return 1+1", window_label := some "main" }
      = (.ok { success := true,
               result := some "Code executed successfully. Result stored in window.__mcpLastResult",
               error := none },
         [.directEvalWrapped "return 1+1"]))
    ∧ "Code executed successfully".data
        <+: "Code executed successfully. Result stored in window.__mcpLastResult".data
    ∧ (runWrappedEval (innerEval "return 1+1") st).2.mcpLastResult
      = some { success := true, value := some (.num 2),
               type := some "number", stringValue := some "2" } := by
  refine ⟨?_, by decide, ?_⟩
  · simp [handle_direct_eval, he]
    simpa using hw
  · rw [hi]
    rfl

theorem direct_eval_success_path_witness :
    (Host.mk ["main"] (fun _ => none)).windows.contains "main" = true
    ∧ (Host.mk ["main"] (fun _ => none)).evalOutcome
        (.directEvalWrapped "return 1+1") = none
    ∧ (fun _ : String => InnerOutcome.ok (.num 2)) "return 1+1"
        = InnerOutcome.ok (.num 2)
    ∧ ((handle_direct_eval (Host.mk ["main"] (fun _ => none))
          { code := "return 1+1", window_label := some "main" }
        = (.ok { success := true,
                 result := some "Code executed successfully. Result stored in window.__mcpLastResult",
                 error := none },
           [.directEvalWrapped "return 1+1"]))
      ∧ "Code executed successfully".data
          <+: "Code executed successfully. Result stored in window.__mcpLastResult".data
      ∧ (runWrappedEval ((fun _ : String => InnerOutcome.ok (.num 2)) "return 1+1")
            freshPage).2.mcpLastResult
        = some { success := true, value := some (.num 2),
                 type := some "number", stringValue := some "2" }) :=
  ⟨by decide, rfl, rfl,
    direct_eval_success_path (Host.mk ["main"] (fun _ => none))
      (fun _ => InnerOutcome.ok (.num 2)) freshPage (by decide) rfl rfl⟩

/-- C5: when the window exists but the host's script-evaluation call
errors, direct-eval does not propagate an error to the caller's process:
it returns a normal response with success false, an error string carrying
the host's message, and no result. -/
theorem direct_eval_host_failure_contained (host : Host)
    (req : DirectEvalRequest) (e : String)
    (hw : host.windows.contains (req.window_label.getD "main") = true)
    (he : host.evalOutcome (.directEvalWrapped req.code) = some e) :
    handle_direct_eval host req
      = (.ok { success := false, result := none,
               error := some ("Eval error: " ++ e) },
         [.directEvalWrapped req.code]) := by
  simp [handle_direct_eval, he]
  simpa using hw

theorem direct_eval_host_failure_contained_witness :
    (Host.mk ["main"] (fun _ => some "script parse failed")).windows.contains
        ((some "main" : Option String).getD "main") = true
    ∧ (Host.mk ["main"] (fun _ => some "script parse failed")).evalOutcome
        (.directEvalWrapped "1+") = some "script parse failed"
    ∧ handle_direct_eval (Host.mk ["main"] (fun _ => some "script parse failed"))
        { code := "1+", window_label := some "main" }
      = (.ok { success := false, result := none,
               error := some ("Eval error: " ++ "script parse failed") },
         [.directEvalWrapped "1+"]) :=
  ⟨by decide, rfl,
    direct_eval_host_failure_contained
      (Host.mk ["main"] (fun _ => some "script parse failed"))
      { code := "1+", window_label := some "main" } "script parse failed"
      (by decide) rfl⟩

/-- C6: when the internal setup step of execute-with-console fails (it
does not produce a successful response), the overall outcome equals the
setup outcome verbatim and the caller-supplied code is never handed to
the host for injection. -/
theorem execute_aborts_on_setup_failure (host : Host)
    (req : ExecuteWithConsoleRequest)
    (h : ∀ r, (handle_setup_console_capture host
        { window_label := some (req.window_label.getD "main"),
          session_id := none, timeout_ms := none }).1 = .ok r →
        r.success = false) :
    (handle_execute_with_console host req).1
      = (handle_setup_console_capture host
          { window_label := some (req.window_label.getD "main"),
            session_id := none, timeout_ms := none }).1
    ∧ Script.userCode req.code ∉ (handle_execute_with_console host req).2 := by
  cases hw : host.windows.contains (req.window_label.getD "main") with
  | false =>
    have hw2 : req.window_label.getD "main" ∉ host.windows := by
      simpa using hw
    constructor
    · simp [handle_execute_with_console, handle_setup_console_capture, hw2]
    · simp [handle_execute_with_console, hw2]
  | true =>
    have hw2 : req.window_label.getD "main" ∈ host.windows := by
      simpa using hw
    cases hc : host.evalOutcome Script.captureCode with
    | some e =>
      constructor
      · simp [handle_execute_with_console, handle_setup_console_capture, hw2, hc]
      · simp [handle_execute_with_console, handle_setup_console_capture, hw2, hc]
    | none =>
      have hok : (handle_setup_console_capture host
          { window_label := some (req.window_label.getD "main"),
            session_id := none, timeout_ms := none }).1
          = .ok { success := true
                  data := some (.obj
                    [("message",
                      .str "Event-based console capture setup complete"),
                     ("window_label", .str (req.window_label.getD "main"))])
                  error := none } := by
        simp [handle_setup_console_capture, hw2, hc]
      have hfalse := h _ hok
      simp at hfalse

theorem execute_aborts_on_setup_failure_witness :
    (∀ r, (handle_setup_console_capture
        (Host.mk ["main"] (fun _ => some "nav gone"))
        { window_label := some ((some "main" : Option String).getD "main"),
          session_id := none, timeout_ms := none }).1 = .ok r →
        r.success = false)
    ∧ ((handle_execute_with_console (Host.mk ["main"] (fun _ => some "nav gone"))
          { window_label := some "main", code := "console.log(1)" }).1
        = (handle_setup_console_capture (Host.mk ["main"] (fun _ => some "nav gone"))
            { window_label := some ((some "main" : Option String).getD "main"),
              session_id := none, timeout_ms := none }).1
      ∧ Script.userCode "console.log(1)"
          ∉ (handle_execute_with_console (Host.mk ["main"] (fun _ => some "nav gone"))
              { window_label := some "main", code := "console.log(1)" }).2) :=
  ⟨fun r hr => by simp [handle_setup_console_capture] at hr,
    execute_aborts_on_setup_failure (Host.mk ["main"] (fun _ => some "nav gone"))
      { window_label := some "main", code := "console.log(1)" }
      (fun r hr => by simp [handle_setup_console_capture] at hr)⟩

/-- C8: for every operation, a window_label that does not resolve to a
live window makes the request fail with the window-not-found error before
any script is handed to the host (empty injection trace); and wherever
window_label is omitted it defaults to "main". -/
theorem window_not_found_precedes_injection (host : Host) (millis : Nat)
    (wl sid vn f : Option String) (tm : Option Nat) (code1 code2 : String)
    (h : host.windows.contains (wl.getD "main") = false) :
    handle_setup_console_capture host ⟨wl, sid, tm⟩
      = (.error (windowNotFoundMsg (wl.getD "main")), [])
    ∧ handle_get_js_result host millis ⟨wl, vn⟩
      = (.error (windowNotFoundMsg (wl.getD "main")), [])
    ∧ handle_execute_with_console host ⟨wl, code1⟩
      = (.error (windowNotFoundMsg (wl.getD "main")), [])
    ∧ handle_get_console_buffer host ⟨wl, f⟩
      = (.error (windowNotFoundMsg (wl.getD "main")), [])
    ∧ handle_direct_eval host ⟨code2, wl⟩
      = (.error (windowNotFoundMsg (wl.getD "main")), [])
    ∧ handle_setup_console_capture host ⟨none, sid, tm⟩
      = handle_setup_console_capture host ⟨some "main", sid, tm⟩
    ∧ handle_get_js_result host millis ⟨none, vn⟩
      = handle_get_js_result host millis ⟨some "main", vn⟩
    ∧ handle_execute_with_console host ⟨none, code1⟩
      = handle_execute_with_console host ⟨some "main", code1⟩
    ∧ handle_get_console_buffer host ⟨none, f⟩
      = handle_get_console_buffer host ⟨some "main", f⟩
    ∧ handle_direct_eval host ⟨code2, none⟩
      = handle_direct_eval host ⟨code2, some "main"⟩ := by
  have h2 : wl.getD "main" ∉ host.windows := by simpa using h
  refine ⟨?_, ?_, ?_, ?_, ?_, rfl, rfl, rfl, rfl, rfl⟩
  · simp [handle_setup_console_capture, h2]
  · simp [handle_get_js_result, h2]
  · simp [handle_execute_with_console, h2]
  · simp [handle_get_console_buffer, h2]
  · simp [handle_direct_eval, h2]

theorem window_not_found_precedes_injection_witness :
    (Host.mk ["main"] (fun _ => none)).windows.contains
        ((some "ghost" : Option String).getD "main") = false
    ∧ (handle_setup_console_capture (Host.mk ["main"] (fun _ => none))
          ⟨some "ghost", none, none⟩
        = (.error (windowNotFoundMsg ((some "ghost" : Option String).getD "main")), [])
      ∧ handle_get_js_result (Host.mk ["main"] (fun _ => none)) 1700000000000
          ⟨some "ghost", none⟩
        = (.error (windowNotFoundMsg ((some "ghost" : Option String).getD "main")), [])
      ∧ handle_execute_with_console (Host.mk ["main"] (fun _ => none))
          ⟨some "ghost", "1"⟩
        = (.error (windowNotFoundMsg ((some "ghost" : Option String).getD "main")), [])
      ∧ handle_get_console_buffer (Host.mk ["main"] (fun _ => none))
          ⟨some "ghost", none⟩
        = (.error (windowNotFoundMsg ((some "ghost" : Option String).getD "main")), [])
      ∧ handle_direct_eval (Host.mk ["main"] (fun _ => none)) ⟨"2", some "ghost"⟩
        = (.error (windowNotFoundMsg ((some "ghost" : Option String).getD "main")), [])
      ∧ handle_setup_console_capture (Host.mk ["main"] (fun _ => none))
          ⟨none, none, none⟩
        = handle_setup_console_capture (Host.mk ["main"] (fun _ => none))
            ⟨some "main", none, none⟩
      ∧ handle_get_js_result (Host.mk ["main"] (fun _ => none)) 1700000000000
          ⟨none, none⟩
        = handle_get_js_result (Host.mk ["main"] (fun _ => none)) 1700000000000
            ⟨some "main", none⟩
      ∧ handle_execute_with_console (Host.mk ["main"] (fun _ => none)) ⟨none, "1"⟩
        = handle_execute_with_console (Host.mk ["main"] (fun _ => none))
            ⟨some "main", "1"⟩
      ∧ handle_get_console_buffer (Host.mk ["main"] (fun _ => none)) ⟨none, none⟩
        = handle_get_console_buffer (Host.mk ["main"] (fun _ => none))
            ⟨some "main", none⟩
      ∧ handle_direct_eval (Host.mk ["main"] (fun _ => none)) ⟨"2", none⟩
        = handle_direct_eval (Host.mk ["main"] (fun _ => none)) ⟨"2", some "main"⟩) :=
  ⟨by decide,
    window_not_found_precedes_injection (Host.mk ["main"] (fun _ => none))
      1700000000000 (some "ghost") none none none none "1" "2" (by decide)⟩

/-- C1: after the tag phase logs its message (prefixed with the success
or error tag for key K) through the wrapped console.log, the search phase
scanning the MCP message buffer from the most recent entry backward finds
the first entry containing either tag and stores found true with data
equal to the substring of that message after its first colon (the JSON
payload, as the key contains no colon); if no entry in the buffer
contains either tag, it stores found false with the documented error
string. -/
theorem get_js_result_correlation (key : String) (hk : ':' ∉ key.data)
    (vl : VarLookup) (ts logTs ts2 : String) (st st2 : PageState)
    (hnone : ∀ e ∈ st2.mcpConsoleMessages.getD [],
      tagMatch key e.message = false) :
    (searchPhase key ts2 (retrievePhase key vl ts logTs st).2).2.mcpLastSearchResult
      = some { found := true, data := some (retrievePayload vl ts),
               timestamp := ts2 }
    ∧ (searchPhase key ts2 st2).2.mcpLastSearchResult
      = some { found := false, error := some "Message not found in buffer",
               timestamp := ts2 } := by
  constructor
  · have hmsg : (retrievePhase key vl ts logTs st).2.mcpConsoleMessages
        = some (st.mcpConsoleMessages.getD []
            ++ [consoleEntryOf "log" [.str (retrieveMessage key vl ts)] logTs st]) := by
      cases vl <;> rfl
    have hm : (consoleEntryOf "log" [.str (retrieveMessage key vl ts)] logTs st).message
        = retrieveMessage key vl ts := rfl
    have hcheck : checkEntry key
        (consoleEntryOf "log" [.str (retrieveMessage key vl ts)] logTs st)
        = some (retrievePayload vl ts) := by
      simp [checkEntry, hm, tagMatch_retrieveMessage,
        afterFirstColon_retrieveMessage key vl ts hk]
    have hscan : searchScan key (st.mcpConsoleMessages.getD []
        ++ [consoleEntryOf "log" [.str (retrieveMessage key vl ts)] logTs st])
        = some (retrievePayload vl ts) := by
      rw [searchScan_append, hcheck]
      rfl
    simp [searchPhase, hmsg, hscan]
  · cases hmm : st2.mcpConsoleMessages with
    | none => simp [searchPhase, hmm]
    | some ms =>
      have hscan : searchScan key ms = none :=
        searchScan_none_of_no_match key ms (by simpa [hmm] using hnone)
      simp [searchPhase, hmm, hscan]

theorem get_js_result_correlation_witness :
    (':' ∉ "mcp_result_1700000000000".data)
    ∧ (∀ e ∈ (freshPage.mcpConsoleMessages.getD []),
        tagMatch "mcp_result_1700000000000" e.message = false)
    ∧ ((searchPhase "mcp_result_1700000000000" "tC"
          (retrievePhase "mcp_result_1700000000000" (.ok (.num 7)) "tA" "tB"
            freshPage).2).2.mcpLastSearchResult
        = some { found := true,
                 data := some (retrievePayload (.ok (.num 7)) "tA"),
                 timestamp := "tC" }
      ∧ (searchPhase "mcp_result_1700000000000" "tC" freshPage).2.mcpLastSearchResult
        = some { found := false,
                 error := some "Message not found in buffer",
                 timestamp := "tC" }) :=
  ⟨by decide, by simp [freshPage],
    get_js_result_correlation "mcp_result_1700000000000" (by decide)
      (.ok (.num 7)) "tA" "tB" "tC" freshPage freshPage (by simp [freshPage])⟩
